import Mathlib

/-
  Verification development for the `slidepy` repository
  (Task1_PPTX_report/slidepy): a pptx report generator driven by a JSON
  configuration file.

  The development is a shallow embedding of the three source modules:
    * slides.py  — Slide.from_dict and the five slide-variant constructors,
    * app.py     — the App.generate driver (config load, per-slide loop,
                   error catching, save),
    * cli.py     — the command / default_command decorators and the
                   CommandlineInterface constructor deriving CLI flags from
                   docstrings.

  External collaborators (python-pptx, numpy.loadtxt, matplotlib's implicit
  global figure, argparse, the file system) are modelled as explicit data:
  an `Env` record of oracles for file contents, and a `Figure` record for
  matplotlib's module-global current figure.
-/

namespace Slidepy

/-- JSON values as produced by `json.load`.  Numbers are modelled as `Int`
(the claims only exercise integer fields; float subtleties are not
claim-relevant). -/
inductive Json where
  | null : Json
  | bool : Bool → Json
  | num : Int → Json
  | str : String → Json
  | arr : List Json → Json
  | obj : List (String × Json) → Json

/-- A Python dict with string keys, as obtained from a JSON object.
Keys are unique in dicts produced by `json.load`; lookup takes the first
binding. -/
abbrev Dict := List (String × Json)

/-- First-match lookup, modelling Python `d[k]` / `k in d`. -/
def lookup (k : String) : Dict → Option Json
  | [] => none
  | kv :: rest => if kv.1 = k then some kv.2 else lookup k rest

/-- Key removal, modelling `d.pop(k)`'s mutation of the dict.  Python dicts
have unique keys, so removing every binding of `k` coincides with removing
the single one. -/
def removeKey (k : String) (d : Dict) : Dict :=
  d.filter (fun kv => !(kv.1 = k))

/-- Python `str()` of a JSON-derived value, as interpolated into error
messages.  Container rendering is elided (no claim exercises a non-scalar
`type` value). -/
def pyStr : Json → String
  | .null => "None"
  | .bool true => "True"
  | .bool false => "False"
  | .num n => toString n
  | .str s => s
  | .arr _ => "<list>"
  | .obj _ => "<dict>"

/-- Is this JSON value an object (a `dict`)?  Used by the typeguard check of
`Config.presentation : list[dict]`. -/
def isObjJson : Json → Bool
  | .obj _ => true
  | _ => false

/-- A paragraph appended to a list slide's body placeholder
(`p.text = ...; p.level = ...`). -/
structure Paragraph where
  text : String
  level : Int

/-- The matplotlib module-global current figure: `plt.plot` appends a data
series, `plt.xlabel` / `plt.ylabel` overwrite the axis labels, and
`plt.savefig` snapshots the whole figure.  Nothing in the source ever clears
it. -/
structure Figure where
  series : List (List (Int × Int))
  xlabel : Json
  ylabel : Json

/-- The figure state at interpreter start-up: no series, empty labels. -/
def figure0 : Figure := ⟨[], .str "", .str ""⟩

/-- The claim-relevant content placed on one rendered slide.  For the
picture and plot variants the payload is `Option`al because the constructor
appends the slide (`add_slide`) before the fallible body runs: on a body
failure the document already holds a slide without its image. -/
inductive SlideContent where
  | titleC (subtitle : String) : SlideContent
  | textC (boxText : String) : SlideContent
  | listC (paras : List Paragraph) : SlideContent
  | pictureC (img : Option String) : SlideContent
  | plotC (img : Option Figure) : SlideContent

/-- One slide of the pptx document: which layout template it was added with
(`presentation.slide_layouts[layout]`), its title text, and its content. -/
structure RenderedSlide where
  layout : Nat
  title : String
  content : SlideContent

/-- The mutable state threaded through one `generate` run: the document's
slide list and matplotlib's global figure. -/
structure PState where
  slides : List RenderedSlide
  fig : Figure

/-- Python exceptions as they reach `App.generate`'s except clauses.
`typeCheck` is `typeguard.TypeCheckError`; `typeErr` is a plain `TypeError`
(raised by keyword binding on an unexpected argument), which `generate`
does not catch; `attrErr` is `AttributeError` (cli.py construction time). -/
inductive PyErr where
  | typeCheck (msg : String) : PyErr
  | valueErr (msg : String) : PyErr
  | keyErr (key : String) : PyErr
  | osErr (msg : String) : PyErr
  | typeErr (msg : String) : PyErr
  | attrErr (msg : String) : PyErr

/-- Failure modes of `np.loadtxt`: a missing/unreadable file raises
`OSError`; a file whose cells do not parse as numbers raises `ValueError`. -/
inductive LoadtxtErr where
  | ioErr (msg : String) : LoadtxtErr
  | valErr (msg : String) : LoadtxtErr

/-- The external world of one run: what `np.loadtxt` yields per path, whether
`add_picture` can read a given image path (`some msg` = the `OSError` it
raises), and whether `presentation.save` succeeds. -/
structure Env where
  loadtxt : String → Except LoadtxtErr (List (Int × Int))
  picture : String → Option String
  saveOk : Bool

/-- Append one slide to the document (`presentation.slides.add_slide` plus
the constructor's content mutations on `self.ref`). -/
def addSlide (st : PState) (layout : Nat) (title : String) (c : SlideContent) : PState :=
  ⟨st.slides ++ [⟨layout, title, c⟩], st.fig⟩

/-- Keyword binding of `**dict` against a constructor's parameter list: a key
that is not a parameter name raises `TypeError` (before any typeguard check
runs). -/
def bindErr (allowed : List String) (d : Dict) : Option PyErr :=
  match d.find? (fun kv => !(allowed.contains kv.1)) with
  | some kv => some (.typeErr ("__init__ got an unexpected keyword argument " ++ kv.1))
  | none => none

/-- A `str`-annotated keyword parameter with default `""`: absent means the
default, a JSON string passes the typeguard check, anything else is a
`TypeCheckError`. -/
def strField (d : Dict) (k : String) : Except PyErr String :=
  match lookup k d with
  | none => .ok ""
  | some (.str s) => .ok s
  | some _ => .error (.typeCheck ("argument " ++ k ++ " is not an instance of str"))

/-- A `dict`-annotated keyword parameter with default an empty dict
(PlotSlide's `configuration`). -/
def dictField (d : Dict) (k : String) : Except PyErr Dict :=
  match lookup k d with
  | none => .ok []
  | some (.obj kvs) => .ok kvs
  | some _ => .error (.typeCheck ("argument " ++ k ++ " is not an instance of dict"))

/-- typeguard's check of one element against `ListElements`: it must be a
dict whose `level` is an int (a Python `bool` also passes, being an `int`
subclass) and whose `text` is a str, with no extra keys. -/
def listElement : Json → Except PyErr (Int × String)
  | .obj kvs =>
    if kvs.all (fun kv => kv.1 = "level" || kv.1 = "text") then
      match lookup "level" kvs with
      | some (.num n) =>
        (match lookup "text" kvs with
         | some (.str s) => .ok (n, s)
         | _ => .error (.typeCheck "value of key text of argument content is not an instance of str"))
      | some (.bool b) =>
        (match lookup "text" kvs with
         | some (.str s) => .ok ((if b then 1 else 0), s)
         | _ => .error (.typeCheck "value of key text of argument content is not an instance of str"))
      | _ => .error (.typeCheck "value of key level of argument content is not an instance of int")
    else .error (.typeCheck "item of argument content has unexpected extra keys")
  | _ => .error (.typeCheck "item of argument content is not a dict")

/-- typeguard's collection check under its default FIRST_ITEM strategy
(typeguard >= 3, the only line the source runs on): only the first element
of a list is checked against the element type; later elements are never
examined. -/
def listFirstItemCheck : List Json → Except PyErr Unit
  | [] => .ok ()
  | x :: _ =>
    match listElement x with
    | .error e => .error e
    | .ok _ => .ok ()

/-- ListSlide's `content : list[ListElements] = []` keyword parameter: the
value must be a list, and (FIRST_ITEM strategy) its first element, if any,
must be a `ListElements` dict.  The raw list is what the constructor body
then iterates over — validation does not transform it. -/
def listField (d : Dict) : Except PyErr (List Json) :=
  match lookup "content" d with
  | none => .ok []
  | some (.arr xs) =>
    (match listFirstItemCheck xs with
     | .error e => .error e
     | .ok _ => .ok xs)
  | some _ => .error (.typeCheck "argument content is not a list")

/-- The paragraph text as the out-of-scope document library stores what the
body hands it (`p.text = kwargs["text"]`).  For str values — the only ones
the claims observe — this is the identity; the library's handling of other,
never type-checked values is the rendering layer's business (authoritative
per the specification) and is modelled as total. -/
def pptxText : Json → String
  | .str s => s
  | v => pyStr v

/-- The paragraph level as the out-of-scope document library stores what the
body hands it (`p.level = kwargs["level"]`).  Integers — the only values the
claims observe — pass through unchanged and unbounded; the rendering layer
is authoritative for anything else and is modelled as total. -/
def pptxLevel : Json → Int
  | .num n => n
  | .bool b => if b then 1 else 0
  | _ => 0

/-- The ListSlide constructor body's loop over the raw `content` list:
`p.text = kwargs["text"]; p.level = kwargs["level"]` for each element, in
order.  Subscripting a non-dict element raises TypeError (uncaught by the
driver); a dict element missing `text` (checked first) or `level` raises
KeyError.  On an error the paragraphs already completed stay on the slide
(the half-initialized trailing paragraph is elided — the run aborts before
any save, so it is unobservable). -/
def appendParagraphs (acc : List Paragraph) : List Json → List Paragraph × Option PyErr
  | [] => (acc, none)
  | .obj kvs :: rest =>
    (match lookup "text" kvs with
     | none => (acc, some (.keyErr "text"))
     | some tv =>
       match lookup "level" kvs with
       | none => (acc, some (.keyErr "level"))
       | some lv => appendParagraphs (acc ++ [⟨pptxText tv, pptxLevel lv⟩]) rest)
  | _ :: _ => (acc, some (.typeErr "object is not subscriptable"))

/-- TitleSlide.__init__'s keyword binding and typeguard checks, run before
the constructor body (typeguard instruments the checks at function entry, in
parameter order). -/
def TitleSlide.checkArgs (d : Dict) : Except PyErr (String × String) :=
  match bindErr ["title", "content"] d with
  | some e => .error e
  | none =>
    match strField d "title" with
    | .error e => .error e
    | .ok title =>
      match strField d "content" with
      | .error e => .error e
      | .ok content => .ok (title, content)

/-- TitleSlide: layout 0, title text, subtitle placeholder text. -/
def TitleSlide.init (env : Env) (st : PState) (d : Dict) : Option PyErr × PState :=
  match TitleSlide.checkArgs d with
  | .error e => (some e, st)
  | .ok (title, content) => (none, addSlide st 0 title (.titleC content))

/-- TextSlide.__init__'s keyword binding and typeguard checks (same signature
as TitleSlide). -/
def TextSlide.checkArgs (d : Dict) : Except PyErr (String × String) :=
  TitleSlide.checkArgs d

/-- TextSlide: layout 5, title text, a free text box holding `content`. -/
def TextSlide.init (env : Env) (st : PState) (d : Dict) : Option PyErr × PState :=
  match TextSlide.checkArgs d with
  | .error e => (some e, st)
  | .ok (title, content) => (none, addSlide st 5 title (.textC content))

/-- ListSlide.__init__'s keyword binding and typeguard checks:
`title : str = ""`, `content : list[ListElements] = []` (only the first
content element is type-checked, per typeguard's FIRST_ITEM default). -/
def ListSlide.checkArgs (d : Dict) : Except PyErr (String × List Json) :=
  match bindErr ["title", "content"] d with
  | some e => .error e
  | none =>
    match strField d "title" with
    | .error e => .error e
    | .ok title =>
      match listField d with
      | .error e => .error e
      | .ok content => .ok (title, content)

/-- ListSlide: layout 1, title text, then the body loop appends one
paragraph per raw content element, in order, reading `text` and `level` out
of each element as it goes (the level is not range-checked anywhere in the
core).  The slide is added before the loop runs, so a loop failure leaves a
slide with the paragraphs completed so far. -/
def ListSlide.init (env : Env) (st : PState) (d : Dict) : Option PyErr × PState :=
  match ListSlide.checkArgs d with
  | .error e => (some e, st)
  | .ok (title, content) =>
    (match appendParagraphs [] content with
     | (paras, some e) => (some e, addSlide st 1 title (.listC paras))
     | (paras, none) => (none, addSlide st 1 title (.listC paras)))

/-- PictureSlide.__init__'s keyword binding and typeguard checks (same
signature as TitleSlide; `content` is the image path). -/
def PictureSlide.checkArgs (d : Dict) : Except PyErr (String × String) :=
  TitleSlide.checkArgs d

/-- PictureSlide: layout 5, title text, then `add_picture(content, ...)`.
The slide is added (and its title set) before `add_picture` runs, so a
failing image load leaves a slide without an image in the document. -/
def PictureSlide.init (env : Env) (st : PState) (d : Dict) : Option PyErr × PState :=
  match PictureSlide.checkArgs d with
  | .error e => (some e, st)
  | .ok (title, content) =>
    match env.picture content with
    | some m => (some (.osErr m), addSlide st 5 title (.pictureC none))
    | none => (none, addSlide st 5 title (.pictureC (some content)))

/-- PlotSlide.__init__'s keyword binding and typeguard checks:
`title : str = ""`, `content : str = ""`, `configuration : dict = `empty. -/
def PlotSlide.checkArgs (d : Dict) : Except PyErr (String × String × Dict) :=
  match bindErr ["title", "content", "configuration"] d with
  | some e => .error e
  | none =>
    match strField d "title" with
    | .error e => .error e
    | .ok title =>
      match strField d "content" with
      | .error e => .error e
      | .ok content =>
        match dictField d "configuration" with
        | .error e => .error e
        | .ok conf => .ok (title, content, conf)

/-- PlotSlide: layout 5, title text; then, in source order: `np.loadtxt` on
`content`, `plt.plot` (appending a series to the global figure),
`plt.xlabel(configuration["x-label"])`, `plt.ylabel(configuration["y-label"])`,
`plt.savefig` snapshotting the figure, and `add_picture` embedding it.
A failure after `add_slide` leaves a slide without an image; a failure after
`plt.plot` leaves the series in the global figure. -/
def PlotSlide.init (env : Env) (st : PState) (d : Dict) : Option PyErr × PState :=
  match PlotSlide.checkArgs d with
  | .error e => (some e, st)
  | .ok (title, content, conf) =>
    match env.loadtxt content with
    | .error (.ioErr m) => (some (.osErr m), addSlide st 5 title (.plotC none))
    | .error (.valErr m) => (some (.valueErr m), addSlide st 5 title (.plotC none))
    | .ok rows =>
      let fig1 : Figure := ⟨st.fig.series ++ [rows], st.fig.xlabel, st.fig.ylabel⟩
      match lookup "x-label" conf with
      | none => (some (.keyErr "x-label"), ⟨st.slides ++ [⟨5, title, .plotC none⟩], fig1⟩)
      | some xv =>
        let fig2 : Figure := ⟨fig1.series, xv, fig1.ylabel⟩
        match lookup "y-label" conf with
        | none => (some (.keyErr "y-label"), ⟨st.slides ++ [⟨5, title, .plotC none⟩], fig2⟩)
        | some yv =>
          let fig3 : Figure := ⟨fig2.series, fig2.xlabel, yv⟩
          (none, ⟨st.slides ++ [⟨5, title, .plotC (some fig3)⟩], fig3⟩)

/-- Result of one `Slide.from_dict` call: the exception (if any), the state
after the call (mutations survive an exception), and the caller's dict after
the call (the `type` key has been popped). -/
structure FromDictOut where
  err : Option PyErr
  state : PState
  dict : Dict

/-- Slide.from_dict: pop `type` (KeyError if absent — the dict and document
are untouched then), dispatch on its value to the variant constructor, or
raise ValueError for an unrecognized type.  The popped dict is returned to
record the mutation of the caller's dictionary. -/
def Slide.from_dict (env : Env) (st : PState) (d : Dict) : FromDictOut :=
  match lookup "type" d with
  | none => ⟨some (.keyErr "type"), st, d⟩
  | some tv =>
    let d' := removeKey "type" d
    let out : Option PyErr × PState :=
      match tv with
      | .str t =>
        if t = "title" then TitleSlide.init env st d'
        else if t = "text" then TextSlide.init env st d'
        else if t = "list" then ListSlide.init env st d'
        else if t = "picture" then PictureSlide.init env st d'
        else if t = "plot" then PlotSlide.init env st d'
        else (some (.valueErr ("\"" ++ t ++ "\" is not a valid slide type!")), st)
      | other => (some (.valueErr ("\"" ++ pyStr other ++ "\" is not a valid slide type!")), st)
    ⟨out.1, out.2, d'⟩

/-- Whether building a slide from this spec raises, and which exception.
The exception raised by a variant constructor depends only on the spec and
the environment, never on the document state (proved below), so validity of
a spec is a property of the spec alone. -/
def Slide.buildErr (env : Env) (d : Dict) : Option PyErr :=
  (Slide.from_dict env ⟨[], figure0⟩ d).err

/-- Outcome of opening and JSON-parsing the configuration path: the open can
raise `OSError`, `json.load` can raise `JSONDecodeError`, or a JSON value is
obtained. -/
inductive ConfigSource where
  | unreadable : ConfigSource
  | invalidJson (msg : String) : ConfigSource
  | parsed (data : Json) : ConfigSource

/-- The observable outcome of one `App.generate` run.  Every constructor
except `saved` means the error was logged and the method returned with no
output file written; `uncaught` means an exception escaped all except
clauses (the process dies with a traceback).  `slideError` records the
1-based slide index used in the log line together with the caught
exception. -/
inductive GenResult where
  | configLoadError : GenResult
  | configJsonError (msg : String) : GenResult
  | configFormatError : GenResult
  | slideError (idx : Nat) (e : PyErr) : GenResult
  | uncaught (e : PyErr) : GenResult
  | saveError : GenResult
  | saved (slides : List RenderedSlide) : GenResult

/-- The declared-field part of the typeguard shape check: `data` is a dict
whose `presentation` is a `list[dict]`.  Under typeguard's default
FIRST_ITEM collection strategy only the first element of the list is
checked to be a dict; later elements are never examined at load time. -/
def hasPresentationList : Json → Bool
  | .obj kvs =>
    (match lookup "presentation" kvs with
     | some (.arr []) => true
     | some (.arr (x :: _)) => isObjJson x
     | _ => false)
  | _ => false

/-- typeguard's check of `data` against `Config(TypedDict)` with the single
field `presentation : list[dict]`: `data` must be a dict, `presentation`
must be present and a list whose items are dicts, and a TypedDict admits no
extra keys. -/
def checkConfig (j : Json) : Bool :=
  hasPresentationList j &&
  (match j with
   | .obj kvs => kvs.all (fun kv => kv.1 = "presentation")
   | _ => false)

/-- Extract `data["presentation"]` (defined whenever `checkConfig` holds;
the fallback branches are dead code under that guard). -/
def presentationOf : Json → List Json
  | .obj kvs =>
    match lookup "presentation" kvs with
    | some (.arr xs) => xs
    | _ => []
  | _ => []

/-- The per-slide loop of `App.generate` (`for i, slide_properties in
enumerate(data["presentation"])`), carrying the 1-based index used in log
messages.  TypeCheckError, ValueError, KeyError and OSError are caught,
logged and end the run; any other exception escapes — a TypeError (from an
unexpected keyword argument or from subscripting a non-dict content
element) as well as the AttributeError that `slide_properties.pop` raises
on a presentation item that is not a dict (reachable, since load-time
checking only examined the first item).  After the loop,
`presentation.save(output)`. -/
def genLoop (env : Env) (st : PState) (i : Nat) : List Json → GenResult
  | [] => if env.saveOk then .saved st.slides else .saveError
  | .obj kvs :: rest =>
    let out := Slide.from_dict env st kvs
    (match out.err with
     | some (.typeErr m) => .uncaught (.typeErr m)
     | some (.attrErr m) => .uncaught (.attrErr m)
     | some e => .slideError i e
     | none => genLoop env out.state (i + 1) rest)
  | _ :: _ => .uncaught (.attrErr "object has no attribute pop")

/-- App.generate: load and type-check the configuration (each failure is
caught, logged and aborts with no output), then build the slides in input
order starting from an empty document and a fresh matplotlib figure, then
save. -/
def generate (env : Env) (cfg : ConfigSource) : GenResult :=
  match cfg with
  | .unreadable => .configLoadError
  | .invalidJson m => .configJsonError m
  | .parsed data =>
    if checkConfig data then genLoop env ⟨[], figure0⟩ 1 (presentationOf data)
    else .configFormatError

/-- The error log line `App.generate` emits for a caught per-slide
exception, by except branch: TypeCheckError and ValueError share the
"not in a valid format" template, KeyError gets "is missing a property",
OSError gets "has a file dependency which could not be loaded". -/
def slideLogMsg (i : Nat) : PyErr → String
  | .typeCheck m => "Slide number " ++ toString i ++ " is not in a valid format! " ++ m
  | .valueErr m => "Slide number " ++ toString i ++ " is not in a valid format! " ++ m
  | .keyErr k => "Slide number " ++ toString i ++ " is missing a property! " ++ k
  | .osErr m =>
    "Slide number " ++ toString i ++ " has a file dependency which could not be loaded! " ++ m
  | .typeErr m => m
  | .attrErr m => m

/-- Did the run report the slide error through the OSError branch — the one
the specification's taxonomy calls `ResourceLoadError`? -/
def isResourceLoadReport : GenResult → Bool
  | .slideError _ (.osErr _) => true
  | _ => false

/-- Did the run end with a per-slide error that `generate` caught and
logged (as opposed to an exception escaping, or any other outcome)? -/
def isCaughtReport : GenResult → Bool
  | .slideError _ _ => true
  | _ => false

/-- The layout index the document library is asked for, per variant tag of a
spec: the title layout (0) for `title`, the bulleted layout (1) for `list`,
the generic content layout (5) for `text`, `picture` and `plot`. -/
def variantLayout (d : Dict) : Nat :=
  match lookup "type" d with
  | some (.str "title") => 0
  | some (.str "list") => 1
  | _ => 5

/-- One parameter record as `docstring_parser` yields it from a Google-style
`Args:` section: name, declared type name, whether the docs mark it
optional, and its help text. -/
structure DocParam where
  arg_name : String
  type_name : String
  is_optional : Bool
  descr : String

/-- A parsed docstring: short description, long description, and the
documented parameters. -/
structure Docstring where
  short_descr : Option String
  long_descr : Option String
  params : List DocParam

/-- A method of the handler class as the dispatcher sees it: its name, its
raw docstring (`none` models `__doc__ is None`), and the marker attributes
the decorators set. -/
structure Method where
  name : String
  doc : Option Docstring
  is_command : Bool
  is_default_command : Bool

/-- The `command` decorator: raises `AttributeError` when the method has no
docstring, otherwise sets `is_command`. -/
def command (m : Method) : Except PyErr Method :=
  match m.doc with
  | none => .error (.attrErr (m.name ++ " has no docstring!"))
  | some _ => .ok ⟨m.name, m.doc, true, m.is_default_command⟩

/-- The `default_command` decorator: sets both markers.  It performs no
docstring check of any kind. -/
def default_command (m : Method) : Method :=
  ⟨m.name, m.doc, true, true⟩

/-- Python's `.replace('_', '-')` as cli.py applies it to method and
parameter names: the pattern is a single character, so it is the
per-character substitution of hyphens for underscores. -/
def hyphenate (s : String) : String :=
  ⟨s.data.map (fun c => if c = '_' then '-' else c)⟩

/-- One derived CLI flag: `--name`, whether it consumes a value
(argparse `store` vs `store_true`), its declared type name, and whether
argparse will demand it.  A presence flag (`store_true`) consumes no value,
defaults to false and is never required. -/
structure Flag where
  flag : String
  takes_value : Bool
  type_name : String
  required : Bool

/-- Flag derivation for one documented parameter (cli.py lines 125-140):
a `bool`-typed parameter becomes a presence flag; any other type becomes a
value-taking flag, required exactly when the docs do not mark it optional.
Underscores in the parameter name render as hyphens. -/
def flagOfParam (p : DocParam) : Flag :=
  if p.type_name = "bool" then
    ⟨"--" ++ hyphenate p.arg_name, false, "bool", false⟩
  else
    ⟨"--" ++ hyphenate p.arg_name, true, p.type_name, !p.is_optional⟩

/-- One subcommand of the built CLI: its name (method name with underscores
rendered as hyphens) and its derived flags. -/
structure SubCmd where
  cmd : String
  flags : List Flag

/-- The dispatcher state built by `CommandlineInterface.__init__`: the
program description and the registered subcommands; `dflt` names the method
registered as the default command, if any. -/
structure CLI where
  descr : Option String
  subcmds : List SubCmd
  dflt : Option String

/-- Register the command-marked methods in `dir` order: a default command is
recorded and skipped (its docstring is never parsed); every other command
method gets a subparser with flags derived from its documented parameters.
A command-marked method without a docstring would crash docstring parsing
(dead code: `command` already rejects it). -/
def registerCmds (acc : CLI) : List Method → Except PyErr CLI
  | [] => .ok acc
  | m :: rest =>
    if m.is_command then
      if m.is_default_command then
        registerCmds ⟨acc.descr, acc.subcmds, some m.name⟩ rest
      else
        match m.doc with
        | none => .error (.typeErr "expected str or unicode docstring")
        | some ds =>
          let sub : SubCmd := ⟨hyphenate m.name, ds.params.map flagOfParam⟩
          registerCmds ⟨acc.descr, acc.subcmds ++ [sub], acc.dflt⟩ rest
    else registerCmds acc rest

/-- CommandlineInterface.__init__: raises `AttributeError` when the handler
class has no docstring, otherwise records its short description and scans
the methods for commands. -/
def CommandlineInterface.init (classDoc : Option Docstring) (methods : List Method) :
    Except PyErr CLI :=
  match classDoc with
  | none => .error (.attrErr "handler has no docstring!")
  | some ds => registerCmds ⟨ds.short_descr, [], none⟩ methods

/-- Modelled collaborator (argparse): what one parsed flag binds to.  A
presence flag (`store_true`) binds a boolean — true when supplied, its
default false when absent; a value-taking flag binds the raw string, or
argparse's default `None` when an optional flag is absent. -/
inductive ArgVal where
  | boolVal (b : Bool) : ArgVal
  | strVal (s : String) : ArgVal
  | noneVal : ArgVal

/-- Modelled collaborator (argparse): parse one flag from the supplied
command line (`given` pairs each flag string with its raw value).  An absent
required flag fails the parse with the standard argparse error. -/
def parseFlag (given : List (String × String)) (f : Flag) : Except String (String × ArgVal) :=
  match given.find? (fun g => g.1 = f.flag) with
  | some g => if f.takes_value then .ok (f.flag, .strVal g.2) else .ok (f.flag, .boolVal true)
  | none =>
    if f.takes_value then
      if f.required then .error ("the following arguments are required: " ++ f.flag)
      else .ok (f.flag, .noneVal)
    else .ok (f.flag, .boolVal false)

/-- Modelled collaborator (argparse): parse all flags of a subcommand,
failing on the first missing required flag. -/
def parseFlags (flags : List Flag) (given : List (String × String)) :
    Except String (List (String × ArgVal)) :=
  match flags with
  | [] => .ok []
  | f :: rest =>
    match parseFlag given f with
    | .error e => .error e
    | .ok a =>
      match parseFlags rest given with
      | .error e => .error e
      | .ok as_ => .ok (a :: as_)

/-- The configuration source whose JSON is exactly the object with the one
key `presentation` holding the given slide-spec dicts. -/
def cfgOf (specs : List Dict) : ConfigSource :=
  .parsed (.obj [("presentation", .arr (specs.map Json.obj))])

/-- The state after processing a list of slide-spec dicts in order (the
effect of the successful iterations of the generate loop). -/
def processAll (env : Env) (st : PState) : List Dict → PState
  | [] => st
  | d :: rest => processAll env (Slide.from_dict env st d).state rest

/-- The family of `list` slide specs the claim C5 quantifies over: a title
and a `content` sequence of well-formed level/text records. -/
def listSpec (t : String) (entries : List (Int × String)) : Dict :=
  [("type", .str "list"), ("title", .str t),
   ("content", .arr (entries.map (fun p => .obj [("level", .num p.1), ("text", .str p.2)])))]

/-- The family of `plot` slide specs claim C6 quantifies over: a title, a
data-file path, and a `configuration` object. -/
def plotSpecD (t datapath : String) (conf : Dict) : Dict :=
  [("type", .str "plot"), ("title", .str t), ("content", .str datapath),
   ("configuration", .obj conf)]

/-- An environment in which every data file exists but holds cells that do
not parse as numbers, so `np.loadtxt` raises ValueError. -/
def envMalformed : Env :=
  ⟨fun _ => .error (.valErr "could not convert string to float"),
   fun _ => some "missing file", true⟩

/-- A plot spec with fixed axis labels, the input family of claim C9. -/
def plotSpecFixed (p : String) : Dict :=
  [("type", .str "plot"), ("content", .str p),
   ("configuration", .obj [("x-label", .str "x"), ("y-label", .str "y")])]

/-- The data series visible in a slide's embedded chart image (empty for
non-plot slides and for a slide whose image was never rendered). -/
def seriesOf : RenderedSlide → List (List (Int × Int))
  | ⟨_, _, .plotC (some f)⟩ => f.series
  | _ => []

/-- The slides a run of consecutive plot specs produces, given the series
already sitting in the never-cleared global figure (`acc`). -/
def expectedPlots (rowsF : String → List (Int × Int)) (acc : List (List (Int × Int))) :
    List String → List RenderedSlide
  | [] => []
  | p :: ps =>
    ⟨5, "", .plotC (some ⟨acc ++ [rowsF p], .str "x", .str "y"⟩)⟩ ::
      expectedPlots rowsF (acc ++ [rowsF p]) ps

/-- An environment with two distinct readable data files. -/
def envW2 : Env :=
  ⟨fun p =>
    if p = "a.csv" then .ok [(0, 0), (1, 1)]
    else if p = "b.csv" then .ok [(0, 5), (1, 6)]
    else .error (.ioErr "missing file"),
   fun _ => some "missing file", true⟩

/-- The per-path data of `envW2` as a total function. -/
def rowsW (p : String) : List (Int × Int) :=
  if p = "a.csv" then [(0, 0), (1, 1)]
  else if p = "b.csv" then [(0, 5), (1, 6)]
  else []

/-- A concrete environment exercising every variant: one readable data file,
one readable image, a writable output path. -/
def envW : Env :=
  ⟨fun p => if p = "data.csv" then .ok [(0, 1), (1, 2)] else .error (.ioErr "missing file"),
   fun p => if p = "img.png" then none else some "missing file",
   true⟩

/-- A concrete five-slide configuration, one spec per variant. -/
def specsW : List Dict :=
  [[("type", .str "title"), ("title", .str "T"), ("content", .str "C")],
   [("type", .str "text"), ("title", .str "T2"), ("content", .str "body")],
   [("type", .str "list"), ("title", .str "L"),
    ("content", .arr [.obj [("level", .num 0), ("text", .str "a")],
                      .obj [("level", .num 1), ("text", .str "b")]])],
   [("type", .str "picture"), ("title", .str "P"), ("content", .str "img.png")],
   [("type", .str "plot"), ("title", .str "G"), ("content", .str "data.csv"),
    ("configuration", .obj [("x-label", .str "x"), ("y-label", .str "y")])]]

/-- The App class docstring (app.py lines 13-16). -/
def appDoc : Docstring :=
  ⟨some "SlidePy",
   some "This application is used to generate a report in pptx format based on a configuration file.",
   []⟩

/-- The docstring of `App.generate` (app.py lines 51-58): two documented
`str` parameters, neither marked optional. -/
def generateDoc : Docstring :=
  ⟨some "Report generation",
   some "Use this subcommand to generate a report based on a configuration file.",
   [⟨"config", "str", false, "Path to the configuration file"⟩,
    ⟨"output", "str", false, "Save the generated report into this file"⟩]⟩

/-- App.default (app.py lines 120-122): marked with `default_command`, and
it has no docstring. -/
def defaultMethod : Method := default_command ⟨"default", none, false, false⟩

/-- App.generate as a marked method (the `command` decorator succeeded on it
at class-definition time because it has a docstring). -/
def generateMethod : Method := ⟨"generate", some generateDoc, true, false⟩

/-- The dispatcher App constructs: class docstring plus the two
command-marked methods, in `dir(self)` order (alphabetical). -/
def appCLI : Except PyErr CLI :=
  CommandlineInterface.init (some appDoc) [defaultMethod, generateMethod]

theorem lookup_removeKey (k : String) (d : Dict) : lookup k (removeKey k d) = none := by
  induction d with
  | nil => rfl
  | cons kv rest ih =>
    by_cases h : kv.1 = k
    · simpa [removeKey, h] using ih
    · simpa [removeKey, lookup, h] using ih

theorem removeKey_of_lookup_none (k : String) (d : Dict) (h : lookup k d = none) :
    removeKey k d = d := by
  induction d with
  | nil => rfl
  | cons kv rest ih =>
    by_cases hk : kv.1 = k
    · simp [lookup, hk] at h
    · simp only [lookup, hk, if_neg] at h
      simp [removeKey, hk] at ih ⊢
      exact ih h

theorem titleSlide_init_fst (env : Env) (st st' : PState) (d : Dict) :
    (TitleSlide.init env st d).1 = (TitleSlide.init env st' d).1 := by
  unfold TitleSlide.init
  cases TitleSlide.checkArgs d <;> rfl

theorem textSlide_init_fst (env : Env) (st st' : PState) (d : Dict) :
    (TextSlide.init env st d).1 = (TextSlide.init env st' d).1 := by
  unfold TextSlide.init
  cases TextSlide.checkArgs d <;> rfl

theorem listSlide_init_fst (env : Env) (st st' : PState) (d : Dict) :
    (ListSlide.init env st d).1 = (ListSlide.init env st' d).1 := by
  unfold ListSlide.init
  cases ListSlide.checkArgs d with
  | error e => rfl
  | ok p =>
    obtain ⟨t, c⟩ := p
    cases h : appendParagraphs [] c with
    | mk paras err => cases err <;> simp [h]

theorem pictureSlide_init_fst (env : Env) (st st' : PState) (d : Dict) :
    (PictureSlide.init env st d).1 = (PictureSlide.init env st' d).1 := by
  unfold PictureSlide.init
  cases PictureSlide.checkArgs d with
  | error e => rfl
  | ok p =>
    obtain ⟨t, c⟩ := p
    cases h : env.picture c <;> simp [h]

theorem plotSlide_init_fst (env : Env) (st st' : PState) (d : Dict) :
    (PlotSlide.init env st d).1 = (PlotSlide.init env st' d).1 := by
  unfold PlotSlide.init
  cases PlotSlide.checkArgs d with
  | error e => rfl
  | ok p =>
    obtain ⟨t, c, conf⟩ := p
    cases h : env.loadtxt c with
    | error e => cases e <;> simp [h]
    | ok rows =>
      simp only [h]
      cases hx : lookup "x-label" conf with
      | none => simp [hx]
      | some xv => cases hy : lookup "y-label" conf <;> simp [hx, hy]

/-- Whether a variant constructor raises, and which exception, depends only
on the spec and the environment — never on the document or figure state. -/
theorem from_dict_err (env : Env) (st : PState) (d : Dict) :
    (Slide.from_dict env st d).err = Slide.buildErr env d := by
  unfold Slide.buildErr Slide.from_dict
  cases lookup "type" d with
  | none => rfl
  | some tv =>
    cases tv with
    | str t =>
      simp only
      by_cases h1 : t = "title"
      · simp [h1, titleSlide_init_fst env st ⟨[], figure0⟩]
      by_cases h2 : t = "text"
      · simp [h1, h2, textSlide_init_fst env st ⟨[], figure0⟩]
      by_cases h3 : t = "list"
      · simp [h1, h2, h3, listSlide_init_fst env st ⟨[], figure0⟩]
      by_cases h4 : t = "picture"
      · simp [h1, h2, h3, h4, pictureSlide_init_fst env st ⟨[], figure0⟩]
      by_cases h5 : t = "plot"
      · simp [h1, h2, h3, h4, h5, plotSlide_init_fst env st ⟨[], figure0⟩]
      · simp [h1, h2, h3, h4, h5]
    | null => rfl
    | bool b => rfl
    | num n => rfl
    | arr xs => rfl
    | obj kvs => rfl

/-- On success, `Slide.from_dict` appends exactly one slide to the document,
built with the layout the variant tag selects. -/
theorem from_dict_ok_shape (env : Env) (st : PState) (d : Dict)
    (h : (Slide.from_dict env st d).err = none) :
    ∃ s fig, (Slide.from_dict env st d).state = ⟨st.slides ++ [s], fig⟩ ∧
      s.layout = variantLayout d := by
  unfold Slide.from_dict at h ⊢
  unfold variantLayout
  cases hty : lookup "type" d with
  | none => simp [hty] at h
  | some tv =>
    simp only [hty] at h ⊢
    cases tv with
    | str t =>
      simp only at h ⊢
      by_cases h1 : t = "title"
      · subst h1
        simp only [if_pos rfl] at h ⊢
        unfold TitleSlide.init at h ⊢
        cases hc : TitleSlide.checkArgs (removeKey "type" d) with
        | error e => simp [hc] at h
        | ok p =>
          obtain ⟨tt, cc⟩ := p
          exact ⟨⟨0, tt, .titleC cc⟩, st.fig, by simp [hc, addSlide], rfl⟩
      by_cases h2 : t = "text"
      · subst h2
        simp only [if_neg h1, if_pos rfl] at h ⊢
        unfold TextSlide.init at h ⊢
        cases hc : TextSlide.checkArgs (removeKey "type" d) with
        | error e => simp [hc] at h
        | ok p =>
          obtain ⟨tt, cc⟩ := p
          exact ⟨⟨5, tt, .textC cc⟩, st.fig, by simp [hc, addSlide], by simp [h1]⟩
      by_cases h3 : t = "list"
      · subst h3
        simp only [if_neg h1, if_neg h2, if_pos rfl] at h ⊢
        unfold ListSlide.init at h ⊢
        cases hc : ListSlide.checkArgs (removeKey "type" d) with
        | error e => simp [hc] at h
        | ok p =>
          obtain ⟨tt, cc⟩ := p
          simp only [hc] at h ⊢
          cases hp : appendParagraphs [] cc with
          | mk paras err =>
            cases err with
            | some e => simp [hp] at h
            | none =>
              exact ⟨⟨1, tt, .listC paras⟩, st.fig, by simp [hp, addSlide], rfl⟩
      by_cases h4 : t = "picture"
      · subst h4
        simp only [if_neg h1, if_neg h2, if_neg h3, if_pos rfl] at h ⊢
        unfold PictureSlide.init at h ⊢
        cases hc : PictureSlide.checkArgs (removeKey "type" d) with
        | error e => simp [hc] at h
        | ok p =>
          obtain ⟨tt, cc⟩ := p
          simp only [hc] at h ⊢
          cases hp : env.picture cc with
          | some m => simp [hp] at h
          | none =>
            exact ⟨⟨5, tt, .pictureC (some cc)⟩, st.fig,
              by simp [hp, addSlide], by simp [h1, h2, h3]⟩
      by_cases h5 : t = "plot"
      · subst h5
        simp only [if_neg h1, if_neg h2, if_neg h3, if_neg h4, if_pos rfl] at h ⊢
        unfold PlotSlide.init at h ⊢
        cases hc : PlotSlide.checkArgs (removeKey "type" d) with
        | error e => simp [hc] at h
        | ok p =>
          obtain ⟨tt, cc, conf⟩ := p
          simp only [hc] at h ⊢
          cases hl : env.loadtxt cc with
          | error e => cases e <;> simp [hl] at h
          | ok rows =>
            simp only [hl] at h ⊢
            cases hx : lookup "x-label" conf with
            | none => simp [hx] at h
            | some xv =>
              simp only [hx] at h ⊢
              cases hy : lookup "y-label" conf with
              | none => simp [hy] at h
              | some yv =>
                refine ⟨⟨5, tt, .plotC (some ⟨st.fig.series ++ [rows], xv, yv⟩)⟩,
                  ⟨st.fig.series ++ [rows], xv, yv⟩, by simp [hy], by simp [h1, h2, h3, h4]⟩
      · simp [h1, h2, h3, h4, h5] at h
    | null => simp at h
    | bool b => simp at h
    | num n => simp at h
    | arr xs => simp at h
    | obj kvs => simp at h

/-- The generate loop runs past a prefix of spec dicts that all build
cleanly, reaching the state that processing them produces, with the 1-based
index advanced by the prefix length. -/
theorem genLoop_valid_prefix (env : Env) (pre : List Dict)
    (hvalid : ∀ d ∈ pre, Slide.buildErr env d = none) :
    ∀ st i rest, genLoop env st i (pre.map Json.obj ++ rest) =
      genLoop env (processAll env st pre) (i + pre.length) rest := by
  induction pre with
  | nil => intro st i rest; simp [processAll]
  | cons d pre ih =>
    intro st i rest
    have h0 : (Slide.from_dict env st d).err = none := by
      rw [from_dict_err]
      exact hvalid d (by simp)
    simp only [List.map_cons, List.cons_append, genLoop, h0, processAll]
    simp only [List.append_eq]
    rw [ih (fun j hj => hvalid j (by simp [hj]))]
    simp only [List.length_cons]
    ring_nf

/-- Processing a list of cleanly-building spec dicts appends one slide per
spec, in input order, each of the variant-appropriate layout. -/
theorem processAll_slides (env : Env) (pre : List Dict)
    (hvalid : ∀ d ∈ pre, Slide.buildErr env d = none) :
    ∀ st, ∃ new, (processAll env st pre).slides = st.slides ++ new ∧
      new.length = pre.length ∧
      new.map RenderedSlide.layout = pre.map variantLayout := by
  induction pre with
  | nil => intro st; exact ⟨[], by simp [processAll]⟩
  | cons d pre ih =>
    intro st
    have h0 : (Slide.from_dict env st d).err = none := by
      rw [from_dict_err]
      exact hvalid d (by simp)
    obtain ⟨s, fig, hstate, hlayout⟩ := from_dict_ok_shape env st d h0
    obtain ⟨new, hnew, hlen, hmap⟩ :=
      ih (fun j hj => hvalid j (by simp [hj])) (Slide.from_dict env st d).state
    refine ⟨s :: new, ?_, by simp [hlen], by simp [hmap, hlayout]⟩
    have hstep : processAll env st (d :: pre) =
        processAll env (Slide.from_dict env st d).state pre := rfl
    rw [hstep, hnew, hstate]
    simp

theorem checkConfig_cfgOf (specs : List Dict) :
    checkConfig (.obj [("presentation", .arr (specs.map Json.obj))]) = true := by
  cases specs <;> simp [checkConfig, hasPresentationList, lookup, isObjJson]

theorem generate_cfgOf (env : Env) (specs : List Dict) :
    generate env (cfgOf specs) = genLoop env ⟨[], figure0⟩ 1 (specs.map Json.obj) := by
  simp [generate, cfgOf, checkConfig_cfgOf, presentationOf, lookup]

/-- C1: for a well-formed configuration whose `presentation` holds N slide
specs that all build cleanly, `generate` saves a document of exactly N
slides, in input order, each added with the variant-appropriate layout
(0 for `title`, 1 for `list`, 5 for `text`/`picture`/`plot`). -/
theorem generate_valid_config_saves_all (env : Env) (specs : List Dict)
    (hvalid : ∀ d ∈ specs, Slide.buildErr env d = none)
    (hsave : env.saveOk = true) :
    ∃ out, generate env (cfgOf specs) = .saved out ∧
      out.length = specs.length ∧
      out.map RenderedSlide.layout = specs.map variantLayout := by
  rw [generate_cfgOf]
  have h1 := genLoop_valid_prefix env specs hvalid ⟨[], figure0⟩ 1 []
  rw [List.append_nil] at h1
  rw [h1]
  obtain ⟨new, hnew, hlen, hmap⟩ := processAll_slides env specs hvalid ⟨[], figure0⟩
  refine ⟨new, ?_, by simp [hlen], hmap⟩
  simp only [genLoop, hsave, if_pos]
  rw [hnew]
  simp

/-- Witness for C1 at a concrete five-variant configuration. -/
theorem generate_valid_config_saves_all_witness :
    ∃ out, generate envW (cfgOf specsW) = .saved out ∧
      out.length = specsW.length ∧
      out.map RenderedSlide.layout = specsW.map variantLayout :=
  generate_valid_config_saves_all envW specsW
    (by
      intro d hd
      simp only [specsW, List.mem_cons, List.not_mem_nil, or_false] at hd
      rcases hd with h | h | h | h | h <;> subst h <;> rfl)
    rfl

/-- After a prefix of cleanly-building specs, the run's outcome is decided
by the next spec: a `TypeError` or `AttributeError` escapes uncaught, any
exception of the four caught kinds is reported against the 1-based index of
that spec, and a clean build continues the loop. -/
theorem generate_prefix_step (env : Env) (pre : List Dict) (bad : Dict) (rest : List Dict)
    (hvalid : ∀ d ∈ pre, Slide.buildErr env d = none) :
    generate env (cfgOf (pre ++ bad :: rest)) =
      (match Slide.buildErr env bad with
       | some (.typeErr m) => .uncaught (.typeErr m)
       | some (.attrErr m) => .uncaught (.attrErr m)
       | some e => .slideError (pre.length + 1) e
       | none =>
         genLoop env
           (Slide.from_dict env (processAll env ⟨[], figure0⟩ pre) bad).state
           (pre.length + 2) (rest.map Json.obj)) := by
  rw [generate_cfgOf]
  have hsplit : (pre ++ bad :: rest).map Json.obj =
      pre.map Json.obj ++ Json.obj bad :: rest.map Json.obj := by simp
  rw [hsplit, genLoop_valid_prefix env pre hvalid ⟨[], figure0⟩ 1 _]
  have herr : (Slide.from_dict env (processAll env ⟨[], figure0⟩ pre) bad).err =
      Slide.buildErr env bad := from_dict_err env _ bad
  cases hE : Slide.buildErr env bad with
  | none =>
    rw [hE] at herr
    have harith : 1 + pre.length + 1 = pre.length + 2 := by omega
    simp only [genLoop, herr, harith]
  | some e =>
    rw [hE] at herr
    have hcomm : 1 + pre.length = pre.length + 1 := by omega
    cases e <;> simp [genLoop, herr, hcomm]

theorem slide_error_policy_aux (env : Env) (pre : List Dict) (bad : Dict)
    (rest : List Dict) (e : PyErr)
    (hvalid : ∀ d ∈ pre, Slide.buildErr env d = none)
    (hbad : Slide.buildErr env bad = some e) :
    (match e with
     | .typeErr m => generate env (cfgOf (pre ++ bad :: rest)) = .uncaught (.typeErr m)
     | .attrErr m => generate env (cfgOf (pre ++ bad :: rest)) = .uncaught (.attrErr m)
     | _ => generate env (cfgOf (pre ++ bad :: rest)) = .slideError (pre.length + 1) e) ∧
    (∀ out, generate env (cfgOf (pre ++ bad :: rest)) ≠ .saved out) := by
  have h := generate_prefix_step env pre bad rest hvalid
  rw [hbad] at h
  constructor
  · cases e <;> simpa using h
  · intro out
    cases e <;> rw [h] <;> simp

/-- C2 (amended): a per-slide exception of the four caught kinds
(TypeCheckError shape mismatch — under typeguard's FIRST_ITEM strategy only
the first element of a list-valued field is shape-checked — ValueError
unknown type or malformed data, KeyError missing field, including a
`text`/`level` key missing from a later, never type-checked content element,
OSError resource load failure) is caught at the driver boundary and reported
with the 1-based index of the failing slide and the cause; the run
terminates there and no output is written.  A `TypeError` — raised when a
spec carries a field the variant does not recognize, or when a later content
element is not a dict and the body subscripts it — and an `AttributeError`
are NOT among the caught kinds: they escape `generate` uncaught. -/
theorem generate_slide_error_policy (env : Env) (pre : List Dict) (bad : Dict)
    (rest : List Dict) (e : PyErr)
    (hvalid : ∀ d ∈ pre, Slide.buildErr env d = none)
    (hbad : Slide.buildErr env bad = some e) :
    (match e with
     | .typeErr m => generate env (cfgOf (pre ++ bad :: rest)) = .uncaught (.typeErr m)
     | .attrErr m => generate env (cfgOf (pre ++ bad :: rest)) = .uncaught (.attrErr m)
     | _ => generate env (cfgOf (pre ++ bad :: rest)) = .slideError (pre.length + 1) e) ∧
    (∀ out, generate env (cfgOf (pre ++ bad :: rest)) ≠ .saved out) :=
  slide_error_policy_aux env pre bad rest e hvalid hbad

/-- Counterexample to C2 as stated: a `title` spec with the unrecognized
field `foo` makes the constructor call raise `TypeError`, which no except
clause of `generate` catches — the error is not logged at the driver
boundary and a traceback escapes to the user. -/
theorem generate_unrecognized_field_escapes :
    generate envW (cfgOf [[("type", .str "title"), ("foo", .str "x")]]) =
      .uncaught (.typeErr "__init__ got an unexpected keyword argument foo") ∧
    isCaughtReport
      (generate envW (cfgOf [[("type", .str "title"), ("foo", .str "x")]])) = false :=
  ⟨rfl, rfl⟩

/-- Witness for C2 (amended): a picture slide with an unreadable image in
second position is caught and reported as slide number 2; nothing is
saved. -/
theorem generate_slide_error_policy_witness :
    generate envW
      (cfgOf [[("type", .str "title")],
              [("type", .str "picture"), ("content", .str "nope.png")]]) =
      .slideError 2 (.osErr "missing file") ∧
    ∀ out, generate envW
      (cfgOf [[("type", .str "title")],
              [("type", .str "picture"), ("content", .str "nope.png")]]) ≠ .saved out := by
  have h := generate_slide_error_policy envW [[("type", .str "title")]]
    [("type", .str "picture"), ("content", .str "nope.png")] [] (.osErr "missing file")
    (by intro d hd; simp only [List.mem_singleton] at hd; subst hd; rfl) rfl
  exact ⟨by simpa using h.1, h.2⟩

/-- C3: a spec whose `type` is none of the five recognized tags fails with
the ValueError naming the offending type, reported against that slide's
1-based index; the later specs are never reached and no output is
written. -/
theorem generate_unknown_type_aborts (env : Env) (pre : List Dict) (bad : Dict)
    (rest : List Dict) (t : String)
    (hvalid : ∀ d ∈ pre, Slide.buildErr env d = none)
    (hty : lookup "type" bad = some (.str t))
    (ht : t ∉ (["title", "text", "list", "picture", "plot"] : List String)) :
    generate env (cfgOf (pre ++ bad :: rest)) =
      .slideError (pre.length + 1)
        (.valueErr ("\"" ++ t ++ "\" is not a valid slide type!")) ∧
    ∀ out, generate env (cfgOf (pre ++ bad :: rest)) ≠ .saved out := by
  have hbad : Slide.buildErr env bad =
      some (.valueErr ("\"" ++ t ++ "\" is not a valid slide type!")) := by
    obtain ⟨h1, h2, h3, h4, h5⟩ :
        ¬t = "title" ∧ ¬t = "text" ∧ ¬t = "list" ∧ ¬t = "picture" ∧ ¬t = "plot" := by
      simpa using ht
    simp [Slide.buildErr, Slide.from_dict, hty, h1, h2, h3, h4, h5]
  have h := slide_error_policy_aux env pre bad rest _ hvalid hbad
  exact ⟨by simpa using h.1, h.2⟩

/-- Witness for C3: `type: "chart"` in second position is rejected as slide
number 2 with the ValueError naming `chart`, and nothing is saved. -/
theorem generate_unknown_type_aborts_witness :
    generate envW
      (cfgOf [[("type", .str "title")], [("type", .str "chart")], [("type", .str "text")]]) =
      .slideError 2 (.valueErr "\"chart\" is not a valid slide type!") ∧
    ∀ out, generate envW
      (cfgOf [[("type", .str "title")], [("type", .str "chart")], [("type", .str "text")]])
      ≠ .saved out := by
  have h := generate_unknown_type_aborts envW [[("type", .str "title")]]
    [("type", .str "chart")] [[("type", .str "text")]] "chart"
    (by intro d hd; simp only [List.mem_singleton] at hd; subst hd; rfl)
    rfl (by decide)
  exact ⟨by simpa using h.1, h.2⟩

/-- C4 (amended): an unreadable configuration path, invalid JSON, and a
parsed value failing the real load check — top level not a dict, no
`presentation` key, `presentation` not a list, or (FIRST_ITEM strategy) a
first presentation element that is not an object — each fail with the
corresponding load/format report, before any slide is built; none of them
saves an output file.  A non-object in a later presentation position is NOT
part of this family: typeguard never examines it at load time. -/
theorem generate_config_error_aborts (env : Env) :
    (generate env .unreadable = .configLoadError) ∧
    (∀ m, generate env (.invalidJson m) = .configJsonError m) ∧
    (∀ j, hasPresentationList j = false →
      generate env (.parsed j) = .configFormatError) ∧
    (∀ out, generate env .unreadable ≠ .saved out) ∧
    (∀ m out, generate env (.invalidJson m) ≠ .saved out) ∧
    (∀ j out, hasPresentationList j = false → generate env (.parsed j) ≠ .saved out) := by
  have hfmt : ∀ j, hasPresentationList j = false →
      generate env (.parsed j) = .configFormatError := by
    intro j hj
    simp [generate, checkConfig, hj]
  refine ⟨rfl, fun m => rfl, hfmt, fun out h => ?_, fun m out h => ?_,
    fun j out hj h => ?_⟩
  · exact GenResult.noConfusion h
  · exact GenResult.noConfusion h
  · rw [hfmt j hj] at h
    exact GenResult.noConfusion h

/-- Counterexample to C4 as stated: `presentation` holding `[\x7b\x7d, 5]` is
not a sequence of objects, yet the real load check passes (only the first
element, a dict, is examined under typeguard's FIRST_ITEM strategy): the
run enters the slide loop and fails on slide 1 with the missing-`type`
KeyError report, not with the pre-loop config-format abort. -/
theorem config_tail_item_not_checked :
    generate envW (.parsed (.obj [("presentation", .arr [.obj [], .num 5])])) =
      .slideError 1 (.keyErr "type") ∧
    generate envW (.parsed (.obj [("presentation", .arr [.obj [], .num 5])])) ≠
      .configFormatError := by
  constructor
  · rfl
  · intro h
    exact GenResult.noConfusion h

/-- Witness for C4 (amended): a configuration whose top level lacks
`presentation` (and non-object tops) are rejected with the format report. -/
theorem generate_config_error_aborts_witness :
    (generate envW .unreadable = .configLoadError) ∧
    (generate envW (.invalidJson "bad json") = .configJsonError "bad json") ∧
    (generate envW (.parsed (.obj [("slides", .arr [])])) = .configFormatError) ∧
    (generate envW (.parsed (.arr [])) = .configFormatError) := by
  have h := generate_config_error_aborts envW
  exact ⟨h.1, h.2.1 "bad json", h.2.2.1 _ rfl, h.2.2.1 _ rfl⟩

theorem listFirstItemCheck_wellformed (entries : List (Int × String)) :
    listFirstItemCheck
      (entries.map (fun p => Json.obj [("level", .num p.1), ("text", .str p.2)])) =
      .ok () := by
  cases entries with
  | nil => rfl
  | cons p rest => simp [listFirstItemCheck, listElement, lookup]

theorem appendParagraphs_wellformed (entries : List (Int × String)) :
    ∀ acc, appendParagraphs acc
      (entries.map (fun p => Json.obj [("level", .num p.1), ("text", .str p.2)])) =
      (acc ++ entries.map (fun p => ⟨p.2, p.1⟩), none) := by
  induction entries with
  | nil => intro acc; simp [appendParagraphs]
  | cons p rest ih =>
    intro acc
    simp [appendParagraphs, lookup, pptxText, pptxLevel, ih, List.append_assoc]

/-- C5: building a `list` slide from a spec whose `content` is a sequence of
level/text records appends exactly one slide (bulleted layout 1) whose body
holds one paragraph per entry, in input order, carrying the entry's text and
level; the level is an arbitrary integer, validated against no maximum.
The caller's dict is left holding the remaining fields (`type` popped). -/
theorem from_dict_list_slide (env : Env) (st : PState) (t : String)
    (entries : List (Int × String)) :
    Slide.from_dict env st (listSpec t entries) =
      ⟨none,
       addSlide st 1 t (.listC (entries.map (fun p => ⟨p.2, p.1⟩))),
       [("title", .str t),
        ("content", .arr (entries.map (fun p => .obj [("level", .num p.1), ("text", .str p.2)])))]⟩ := by
  simp [Slide.from_dict, listSpec, removeKey, lookup, ListSlide.init, ListSlide.checkArgs,
    bindErr, strField, listField, listFirstItemCheck_wellformed, appendParagraphs_wellformed]

/-- C6 (amended): after a successful data load, a `plot` spec whose
`configuration` lacks `x-label` (or `y-label`) fails with the missing-field
(KeyError) report and writes no output.  An unreadable data file fails
through the OSError branch — the report the specification calls
`ResourceLoadError`.  A data file that is readable but malformed raises
ValueError in `np.loadtxt`, which `generate` reports through the
invalid-format branch, not the resource-load branch. -/
theorem generate_plot_errors (env : Env) (t datapath : String) (conf : Dict) :
    (∀ rows, env.loadtxt datapath = .ok rows → lookup "x-label" conf = none →
      generate env (cfgOf [plotSpecD t datapath conf]) = .slideError 1 (.keyErr "x-label") ∧
      ∀ out, generate env (cfgOf [plotSpecD t datapath conf]) ≠ .saved out) ∧
    (∀ rows xv, env.loadtxt datapath = .ok rows → lookup "x-label" conf = some xv →
      lookup "y-label" conf = none →
      generate env (cfgOf [plotSpecD t datapath conf]) = .slideError 1 (.keyErr "y-label") ∧
      ∀ out, generate env (cfgOf [plotSpecD t datapath conf]) ≠ .saved out) ∧
    (∀ m, env.loadtxt datapath = .error (.ioErr m) →
      generate env (cfgOf [plotSpecD t datapath conf]) = .slideError 1 (.osErr m) ∧
      isResourceLoadReport (generate env (cfgOf [plotSpecD t datapath conf])) = true) ∧
    (∀ m, env.loadtxt datapath = .error (.valErr m) →
      generate env (cfgOf [plotSpecD t datapath conf]) = .slideError 1 (.valueErr m) ∧
      isResourceLoadReport (generate env (cfgOf [plotSpecD t datapath conf])) = false) := by
  have hpolicy : ∀ e : PyErr, Slide.buildErr env (plotSpecD t datapath conf) = some e →
      (∀ m, e ≠ PyErr.typeErr m) → (∀ m, e ≠ PyErr.attrErr m) →
      generate env (cfgOf [plotSpecD t datapath conf]) = .slideError 1 e ∧
      ∀ out, generate env (cfgOf [plotSpecD t datapath conf]) ≠ .saved out := by
    intro e hbuild hne hna
    have h := slide_error_policy_aux env [] (plotSpecD t datapath conf) [] e
      (by intro d hd; exact absurd hd (List.not_mem_nil d)) hbuild
    refine ⟨?_, h.2⟩
    have h1 := h.1
    cases e with
    | typeErr m => exact absurd rfl (hne m)
    | attrErr m => exact absurd rfl (hna m)
    | typeCheck m => simpa using h1
    | valueErr m => simpa using h1
    | keyErr k => simpa using h1
    | osErr m => simpa using h1
  refine ⟨?_, ?_, ?_, ?_⟩
  · intro rows hload hx
    refine hpolicy _ ?_ (by intro m h; cases h) (by intro m h; cases h)
    simp [Slide.buildErr, Slide.from_dict, plotSpecD, removeKey, lookup, PlotSlide.init,
      PlotSlide.checkArgs, bindErr, strField, dictField, hload, hx]
  · intro rows xv hload hx hy
    refine hpolicy _ ?_ (by intro m h; cases h) (by intro m h; cases h)
    simp [Slide.buildErr, Slide.from_dict, plotSpecD, removeKey, lookup, PlotSlide.init,
      PlotSlide.checkArgs, bindErr, strField, dictField, hload, hx, hy]
  · intro m hload
    have hbuild : Slide.buildErr env (plotSpecD t datapath conf) = some (.osErr m) := by
      simp [Slide.buildErr, Slide.from_dict, plotSpecD, removeKey, lookup, PlotSlide.init,
        PlotSlide.checkArgs, bindErr, strField, dictField, hload]
    obtain ⟨heq, _⟩ := hpolicy _ hbuild (by intro m' h; cases h) (by intro m' h; cases h)
    exact ⟨heq, by rw [heq]; rfl⟩
  · intro m hload
    have hbuild : Slide.buildErr env (plotSpecD t datapath conf) = some (.valueErr m) := by
      simp [Slide.buildErr, Slide.from_dict, plotSpecD, removeKey, lookup, PlotSlide.init,
        PlotSlide.checkArgs, bindErr, strField, dictField, hload]
    obtain ⟨heq, _⟩ := hpolicy _ hbuild (by intro m' h; cases h) (by intro m' h; cases h)
    exact ⟨heq, by rw [heq]; rfl⟩

/-- Counterexample to C6 as stated: a readable but malformed data file makes
`np.loadtxt` raise ValueError, and `generate` reports it through the
invalid-format branch — not through the OSError branch the specification
calls `ResourceLoadError`. -/
theorem plot_malformed_data_not_resource_report :
    generate envMalformed
      (cfgOf [plotSpecD "G" "data.csv" [("x-label", .str "x"), ("y-label", .str "y")]]) =
      .slideError 1 (.valueErr "could not convert string to float") ∧
    isResourceLoadReport
      (generate envMalformed
        (cfgOf [plotSpecD "G" "data.csv" [("x-label", .str "x"), ("y-label", .str "y")]])) =
      false :=
  ⟨rfl, rfl⟩

/-- Witness for C6 (amended): missing `x-label` with a readable data file is
reported as a missing property of slide 1; an unreadable data file is
reported through the resource-load branch. -/
theorem generate_plot_errors_witness :
    generate envW (cfgOf [plotSpecD "G" "data.csv" [("y-label", .str "y")]]) =
      .slideError 1 (.keyErr "x-label") ∧
    generate envW (cfgOf [plotSpecD "G" "nope.csv" []]) =
      .slideError 1 (.osErr "missing file") := by
  have h1 := (generate_plot_errors envW "G" "data.csv" [("y-label", .str "y")]).1
    [(0, 1), (1, 2)] rfl rfl
  have h2 := (generate_plot_errors envW "G" "nope.csv" []).2.2.1 "missing file" rfl
  exact ⟨h1.1, h2.1⟩

theorem from_dict_plotSpecFixed (env : Env) (st : PState) (p : String)
    (rows : List (Int × Int)) (h : env.loadtxt p = .ok rows) :
    Slide.from_dict env st (plotSpecFixed p) =
      ⟨none,
       ⟨st.slides ++ [⟨5, "", .plotC (some ⟨st.fig.series ++ [rows], .str "x", .str "y"⟩)⟩],
        ⟨st.fig.series ++ [rows], .str "x", .str "y"⟩⟩,
       removeKey "type" (plotSpecFixed p)⟩ := by
  simp [Slide.from_dict, plotSpecFixed, removeKey, lookup, PlotSlide.init,
    PlotSlide.checkArgs, bindErr, strField, dictField, h]

theorem genLoop_plots (env : Env) (rowsF : String → List (Int × Int))
    (hsave : env.saveOk = true) :
    ∀ paths : List String, (∀ p ∈ paths, env.loadtxt p = .ok (rowsF p)) →
    ∀ st i, genLoop env st i (paths.map (fun p => Json.obj (plotSpecFixed p))) =
      .saved (st.slides ++ expectedPlots rowsF st.fig.series paths) := by
  intro paths
  induction paths with
  | nil => intro _ st i; simp [genLoop, hsave, expectedPlots]
  | cons p ps ih =>
    intro hload st i
    have hfd := from_dict_plotSpecFixed env st p (rowsF p) (hload p (by simp))
    simp only [List.map_cons, genLoop, hfd]
    rw [ih (fun q hq => hload q (by simp [hq])) _ (i + 1)]
    simp [expectedPlots, List.append_assoc]

theorem expectedPlots_series (rowsF : String → List (Int × Int)) :
    ∀ (ps : List String) (acc : List (List (Int × Int))) (i : Nat), i < ps.length →
      ((expectedPlots rowsF acc ps).map seriesOf)[i]? =
        some (acc ++ (ps.take (i + 1)).map rowsF) := by
  intro ps
  induction ps with
  | nil => intro acc i h; simp at h
  | cons p ps ih =>
    intro acc i h
    cases i with
    | zero => simp [expectedPlots, seriesOf]
    | succ n =>
      simp only [expectedPlots, List.map_cons, List.getElem?_cons_succ]
      rw [ih (acc ++ [rowsF p]) n (by simpa using h)]
      simp [List.append_assoc]

/-- C9: constructing plot slides mutates the module-global matplotlib figure
and nothing ever clears it, so in a configuration of consecutive plot specs
the chart image embedded on the i-th plot slide shows the series of all
plots up to and including i — every later plot slide also displays all
earlier data series, not only its own. -/
theorem generate_plot_state_leaks (env : Env) (rowsF : String → List (Int × Int))
    (paths : List String)
    (hload : ∀ p ∈ paths, env.loadtxt p = .ok (rowsF p))
    (hsave : env.saveOk = true) :
    generate env (cfgOf (paths.map plotSpecFixed)) =
      .saved (expectedPlots rowsF [] paths) ∧
    ∀ i, i < paths.length →
      ((expectedPlots rowsF [] paths).map seriesOf)[i]? =
        some ((paths.take (i + 1)).map rowsF) := by
  constructor
  · rw [generate_cfgOf, List.map_map]
    have h := genLoop_plots env rowsF hsave paths hload ⟨[], figure0⟩ 1
    simpa [figure0, Function.comp] using h
  · intro i h
    simpa using expectedPlots_series rowsF paths [] i h

/-- Witness for C9: with two plot slides over data files `a.csv` and
`b.csv`, the saved deck's second chart shows both series. -/
theorem generate_plot_state_leaks_witness :
    generate envW2 (cfgOf (["a.csv", "b.csv"].map plotSpecFixed)) =
      .saved (expectedPlots rowsW [] ["a.csv", "b.csv"]) ∧
    ∀ i, i < (["a.csv", "b.csv"] : List String).length →
      ((expectedPlots rowsW [] ["a.csv", "b.csv"]).map seriesOf)[i]? =
        some (((["a.csv", "b.csv"] : List String).take (i + 1)).map rowsW) :=
  generate_plot_state_leaks envW2 rowsW ["a.csv", "b.csv"]
    (by
      intro p hp
      simp only [List.mem_cons, List.not_mem_nil, or_false] at hp
      rcases hp with h | h <;> subst h <;> rfl)
    rfl

/-- C10: `Slide.from_dict` pops `type` out of the caller's dictionary, so
after any call the dict no longer holds `type`; calling it again with the
same dictionary object therefore raises KeyError.  A dict that lacks `type`
from the start raises KeyError immediately, with the document state and the
dict untouched — no slide is appended. -/
theorem from_dict_mutates_dict (env : Env) (st st' : PState) (d : Dict) :
    ((Slide.from_dict env st d).dict = removeKey "type" d) ∧
    (lookup "type" d = none →
      Slide.from_dict env st d = ⟨some (.keyErr "type"), st, d⟩) ∧
    (Slide.from_dict env st' (Slide.from_dict env st d).dict =
      ⟨some (.keyErr "type"), st', (Slide.from_dict env st d).dict⟩) := by
  have hdict : (Slide.from_dict env st d).dict = removeKey "type" d := by
    unfold Slide.from_dict
    cases h : lookup "type" d with
    | none => simp [removeKey_of_lookup_none "type" d h]
    | some tv => rfl
  refine ⟨hdict, ?_, ?_⟩
  · intro h
    unfold Slide.from_dict
    rw [h]
  · rw [hdict]
    unfold Slide.from_dict
    rw [lookup_removeKey]

/-- Witness for C10: a dict without `type` is rejected up front with the
state untouched, and re-passing an already-consumed dict is rejected. -/
theorem from_dict_mutates_dict_witness :
    (Slide.from_dict envW ⟨[], figure0⟩ [("title", .str "T")] =
      ⟨some (.keyErr "type"), ⟨[], figure0⟩, [("title", .str "T")]⟩) ∧
    (Slide.from_dict envW ⟨[], figure0⟩
        (Slide.from_dict envW ⟨[], figure0⟩
          [("type", .str "title"), ("title", .str "T")]).dict =
      ⟨some (.keyErr "type"), ⟨[], figure0⟩,
       (Slide.from_dict envW ⟨[], figure0⟩
         [("type", .str "title"), ("title", .str "T")]).dict⟩) :=
  ⟨(from_dict_mutates_dict envW ⟨[], figure0⟩ ⟨[], figure0⟩ [("title", .str "T")]).2.1 rfl,
   (from_dict_mutates_dict envW ⟨[], figure0⟩ ⟨[], figure0⟩
     [("type", .str "title"), ("title", .str "T")]).2.2⟩

/-- C7 (amended): marking a method as a command via `command` when it has no
docstring fails with the missing-documentation AttributeError, and
constructing the dispatcher for a handler without a docstring fails the
same way; but `default_command` performs no documentation check — marking a
docstring-less method as the default command succeeds unconditionally. -/
theorem missing_documentation_checks (methods : List Method) (m : Method)
    (hdoc : m.doc = none) :
    command m = .error (.attrErr (m.name ++ " has no docstring!")) ∧
    default_command m = ⟨m.name, none, true, true⟩ ∧
    CommandlineInterface.init none methods = .error (.attrErr "handler has no docstring!") := by
  refine ⟨?_, ?_, rfl⟩
  · simp [command, hdoc]
  · simp [default_command, hdoc]

/-- Witness for C7 (amended) at App's own undocumented `default` method. -/
theorem missing_documentation_checks_witness :
    command ⟨"default", none, false, false⟩ =
      .error (.attrErr ("default" ++ " has no docstring!")) ∧
    default_command ⟨"default", none, false, false⟩ = ⟨"default", none, true, true⟩ ∧
    CommandlineInterface.init none [generateMethod] =
      .error (.attrErr "handler has no docstring!") :=
  missing_documentation_checks [generateMethod] ⟨"default", none, false, false⟩ rfl

/-- Counterexample to C7 as stated: `default_command` raises nothing on a
method with no attached documentation — App's own `default` method has no
docstring, is marked as the default command, and the App dispatcher still
constructs successfully. -/
theorem default_command_skips_doc_check :
    default_command ⟨"default", none, false, false⟩ = ⟨"default", none, true, true⟩ ∧
    appCLI = .ok ⟨some "SlidePy",
      [⟨"generate", [⟨"--config", true, "str", true⟩, ⟨"--output", true, "str", true⟩]⟩],
      some "default"⟩ :=
  ⟨rfl, rfl⟩

/-- C8: a `bool`-documented parameter derives a presence flag (consumes no
value, never required, parses to false when absent); any other documented
type derives a value-taking flag required exactly when the docs do not mark
it optional.  Consequently App's `generate` subcommand exposes required
value-taking `--config` and `--output` flags, and a `generate` invocation
without `--config` fails the parse with argparse's missing-required-flag
error. -/
theorem cli_flag_derivation (p : DocParam) :
    (p.type_name = "bool" →
      flagOfParam p = ⟨"--" ++ hyphenate p.arg_name, false, "bool", false⟩ ∧
      parseFlags [flagOfParam p] [] =
        .ok [("--" ++ hyphenate p.arg_name, .boolVal false)]) ∧
    (p.type_name ≠ "bool" →
      flagOfParam p = ⟨"--" ++ hyphenate p.arg_name, true, p.type_name, !p.is_optional⟩ ∧
      (p.is_optional = false →
        parseFlags [flagOfParam p] [] =
          .error ("the following arguments are required: --" ++ hyphenate p.arg_name))) ∧
    appCLI = .ok ⟨some "SlidePy",
      [⟨"generate", [⟨"--config", true, "str", true⟩, ⟨"--output", true, "str", true⟩]⟩],
      some "default"⟩ ∧
    parseFlags [⟨"--config", true, "str", true⟩, ⟨"--output", true, "str", true⟩]
      [("--output", "out.pptx")] =
      .error ("the following arguments are required: --config") := by
  refine ⟨?_, ?_, rfl, rfl⟩
  · intro h
    constructor
    · simp [flagOfParam, h]
    · simp [flagOfParam, h, parseFlags, parseFlag, List.find?]
  · intro h
    constructor
    · simp [flagOfParam, h]
    · intro hop
      simp [flagOfParam, h, hop, parseFlags, parseFlag, List.find?]
      rw [← String.append_assoc]
      have hlit : ("the following arguments are required: " ++ "--" : String) =
          "the following arguments are required: --" := rfl
      rw [hlit]

/-- Witness for C8 at a concrete `bool` parameter and at `generate`'s
required `config` parameter. -/
theorem cli_flag_derivation_witness :
    (flagOfParam ⟨"verbose", "bool", false, "v"⟩ =
      ⟨"--" ++ hyphenate "verbose", false, "bool", false⟩ ∧
     parseFlags [flagOfParam ⟨"verbose", "bool", false, "v"⟩] [] =
      .ok [("--" ++ hyphenate "verbose", .boolVal false)]) ∧
    (flagOfParam ⟨"config", "str", false, "c"⟩ =
      ⟨"--" ++ hyphenate "config", true, "str", true⟩ ∧
     parseFlags [flagOfParam ⟨"config", "str", false, "c"⟩] [] =
      .error ("the following arguments are required: --" ++ hyphenate "config")) := by
  obtain ⟨hb, _, _, _⟩ := cli_flag_derivation ⟨"verbose", "bool", false, "v"⟩
  obtain ⟨_, hs, _, _⟩ := cli_flag_derivation ⟨"config", "str", false, "c"⟩
  obtain ⟨hb1, hb2⟩ := hb rfl
  obtain ⟨hs1, hs2⟩ := hs (by decide)
  exact ⟨⟨hb1, hb2⟩, ⟨by simpa using hs1, hs2 rfl⟩⟩

end Slidepy
